import Mathlib

/-!
Verification development for the elk-example CRUD HTTP handlers.

The definitions below are a shallow embedding of the generated Go handlers
in `ent/http/create.go` (Create for Group/Pet/User) and the generated Read
handlers (Read for Group/Pet/User).  Injected collaborators (the ent client,
the go-playground validator instance, the zap logger) are modelled as
explicit inputs: the storage backend is an oracle giving the outcome of each
save/query call, and a handler run returns the HTTP response, the sequence
of log entries emitted, and the sequence of storage (Data Access Port) calls
issued, in order.
-/

namespace Elk

/-- Severity of a zap log call: `l.Info` or `l.Error`. -/
inductive LogLevel where
  | info
  | error
deriving DecidableEq, Repr

/-- One structured log entry: severity and message. -/
structure LogEntry where
  level : LogLevel
  msg : String
deriving DecidableEq, Repr

/-- One call issued to the Data Access Port (the ent client): a builder
Save, or a Query-by-id (`q.Only` after `Where(ID(id))`). -/
inductive PortCall where
  | save
  | query (id : Int)
deriving DecidableEq, Repr

/-- Body of an error response rendered by the `render` package: a plain
message string, a field-to-message map (validation errors), or nothing
(`render.InternalServerError(w, r, nil)`). -/
inductive ErrorBody where
  | msg (s : String)
  | fieldErrors (m : List (String × String))
  | empty
deriving DecidableEq, Repr

/-- The HTTP response written by a handler run.  `ok` carries the entity
that is serialized into the 200 body. -/
inductive Response (α : Type) where
  | ok (e : α)
  | badRequest (body : ErrorBody)
  | notFound (msg : String)
  | internalServerError (detail : Option String)
deriving DecidableEq, Repr

/-- Result of one handler run: the response, the log entries emitted (in
order), and the Data Access Port calls issued (in order). -/
structure Outcome (α : Type) where
  response : Response α
  logs : List LogEntry
  portCalls : List PortCall
deriving DecidableEq, Repr

/-- Outcome of `q.Only(ctx)`: the entity, ent NotFoundError, ent
NotSingularError, or any other storage error. -/
inductive FetchResult (α : Type) where
  | found (e : α)
  | notFound
  | notSingular
  | storageError
deriving DecidableEq, Repr

/-- Kind of a failed `b.Save(ctx)`: a referential-integrity/constraint
violation or any other storage error.  The generated handler code does not
inspect the kind; it is carried so that theorems can quantify over it. -/
inductive SaveErrKind where
  | constraint
  | other
deriving DecidableEq, Repr

/-- Outcome of `b.Save(ctx)`. -/
inductive SaveResult (α : Type) where
  | ok (e : α)
  | err (k : SaveErrKind)
deriving DecidableEq, Repr

/-- Outcome of `h.validator.Struct(d)`: nil error, a
`validator.ValidationErrors` field map, or a
`*validator.InvalidValidationError` (a fault in the validation
configuration itself). -/
inductive ValidationResult where
  | valid
  | invalid (errs : List (String × String))
  | fault
deriving DecidableEq, Repr

/-- JSON values, as read by `encoding/json`.  Numbers are modelled as
integers (the only numeric fields of the payloads are Go `int`s). -/
inductive Json where
  | null
  | bool (b : Bool)
  | num (n : Int)
  | str (s : String)
  | arr (xs : List Json)
  | obj (fields : List (String × Json))

/-- Model of `strconv.Atoi`: an optional leading sign followed by one or
more decimal digits; anything else is an error (`none`).  Machine-int range
limits are elided (identifiers are modelled as unbounded integers). -/
def parseDigits (cs : List Char) : Option Nat :=
  if cs ≠ [] ∧ cs.all Char.isDigit then
    some (cs.foldl (fun a c => a * 10 + (c.toNat - 48)) 0)
  else
    none

/-- Model of `strconv.Atoi` on the id URL parameter. -/
def atoi (s : String) : Option Int :=
  match s.data with
  | '+' :: rest => (parseDigits rest).map Int.ofNat
  | '-' :: rest => (parseDigits rest).map (fun n => -(n : Int))
  | cs => (parseDigits cs).map Int.ofNat

/-- The persisted Pet entity (fields relevant to the handlers). -/
structure Pet where
  id : Int
  name : String
  age : Int
deriving DecidableEq, Repr

/-- The persisted User entity (fields relevant to the handlers). -/
structure User where
  id : Int
  name : String
  age : Int
deriving DecidableEq, Repr

/-- The persisted Group entity. -/
structure Group where
  id : Int
deriving DecidableEq, Repr

/-- Payload of an ent.Group create request: a struct with no fields. -/
structure GroupCreateRequest where
deriving DecidableEq, Repr

/-- Payload of an ent.Pet create request.  Each Go pointer field is an
`Option`: `none` models a nil pointer (field absent or JSON null). -/
structure PetCreateRequest where
  name : Option String
  age : Option Int
  owner : Option Int
deriving DecidableEq, Repr

/-- Payload of an ent.User create request.  `pets` is a Go slice: `none`
models a nil slice (field absent or JSON null). -/
structure UserCreateRequest where
  name : Option String
  age : Option Int
  pets : Option (List Int)
deriving DecidableEq, Repr

/-- Last binding of a key in a JSON object (`encoding/json` lets a later
duplicate key overwrite an earlier one). -/
def lookupLast (k : String) (fs : List (String × Json)) : Option Json :=
  (fs.filter (fun p => p.1 = k)).getLast?.map (fun p => p.2)

/-- Decode a JSON object member into a Go `*string` field: absent or null
gives nil, a string gives a pointer, any other type is a decode error. -/
def decOptStr (v : Option Json) : Except Unit (Option String) :=
  match v with
  | none => .ok none
  | some .null => .ok none
  | some (.str s) => .ok (some s)
  | some _ => .error ()

/-- Decode a JSON object member into a Go `*int` field. -/
def decOptInt (v : Option Json) : Except Unit (Option Int) :=
  match v with
  | none => .ok none
  | some .null => .ok none
  | some (.num n) => .ok (some n)
  | some _ => .error ()

/-- Decode one JSON array element into a Go `int`. -/
def decIntElem (j : Json) : Except Unit Int :=
  match j with
  | .num n => .ok n
  | _ => .error ()

/-- Decode a JSON object member into a Go `[]int` field: absent or null
gives a nil slice, an array of numbers gives a slice, anything else is a
decode error. -/
def decIntSlice (v : Option Json) : Except Unit (Option (List Int)) :=
  match v with
  | none => .ok none
  | some .null => .ok none
  | some (.arr xs) => (xs.mapM decIntElem).map some
  | some _ => .error ()

/-- Model of `json.NewDecoder(r.Body).Decode(&d)` for `PetCreateRequest`:
the top-level value must be an object (unknown members ignored) or null;
arrays, strings, numbers and booleans cannot be unmarshalled into a Go
struct and are decode errors. -/
def decodePetCreateRequest (j : Json) : Except Unit PetCreateRequest :=
  match j with
  | .null => .ok ⟨none, none, none⟩
  | .obj fs => do
      let name ← decOptStr (lookupLast "name" fs)
      let age ← decOptInt (lookupLast "age" fs)
      let owner ← decOptInt (lookupLast "owner" fs)
      .ok ⟨name, age, owner⟩
  | _ => .error ()

/-- Model of `json.NewDecoder(r.Body).Decode(&d)` for `UserCreateRequest`. -/
def decodeUserCreateRequest (j : Json) : Except Unit UserCreateRequest :=
  match j with
  | .null => .ok ⟨none, none, none⟩
  | .obj fs => do
      let name ← decOptStr (lookupLast "name" fs)
      let age ← decOptInt (lookupLast "age" fs)
      let pets ← decIntSlice (lookupLast "pets" fs)
      .ok ⟨name, age, pets⟩
  | _ => .error ()

/-- Model of `json.NewDecoder(r.Body).Decode(&d)` for `GroupCreateRequest`
(a struct with no fields): an object of any members, or null, decodes to
the empty struct; any other top-level JSON value is a decode error. -/
def decodeGroupCreateRequest (j : Json) : Except Unit GroupCreateRequest :=
  match j with
  | .null => .ok ⟨⟩
  | .obj _ => .ok ⟨⟩
  | _ => .error ()

/-- Model of the go-playground validator on `PetCreateRequest` with its
declared tags: `Age *int validate:"required,gt=0"` (nil pointer fails
required; a present value must be greater than zero) and
`Owner *int validate:"required"`.  `Name` carries no tag. -/
def petValidate (d : PetCreateRequest) : List (String × String) :=
  (match d.age with
    | none => [("age", "required")]
    | some a => if a > 0 then [] else [("age", "gt")])
  ++ (match d.owner with
    | none => [("owner", "required")]
    | some _ => [])

/-- The validator outcome `h.validator.Struct(d)` for a Pet payload: a
struct value never raises `InvalidValidationError`, so the outcome is
valid or a field-error map. -/
def petValidateResult (d : PetCreateRequest) : ValidationResult :=
  if petValidate d = [] then .valid else .invalid (petValidate d)

/-- Model of the go-playground validator on `GroupCreateRequest`: the
struct has no fields, hence no tags, hence validation always passes. -/
def groupValidateResult (_d : GroupCreateRequest) : ValidationResult :=
  .valid

/-- Pending field assignments of `h.client.Pet.Create()` after the payload
has been mapped on: `none` means the setter was never called, so the
storage-side default applies. -/
structure PetMutation where
  name : Option String
  age : Option Int
  ownerID : Option Int
deriving DecidableEq, Repr

/-- Pending field assignments of `h.client.User.Create()`. -/
structure UserMutation where
  name : Option String
  age : Option Int
  petIDs : Option (List Int)
deriving DecidableEq, Repr

/-- The field-mapping block of `PetHandler.Create`: starting from a fresh
builder, call each setter exactly when the decoded pointer is non-nil. -/
def buildPet (d : PetCreateRequest) : PetMutation :=
  let b : PetMutation := ⟨none, none, none⟩
  let b := match d.name with
    | some v => { b with name := some v }
    | none => b
  let b := match d.age with
    | some v => { b with age := some v }
    | none => b
  let b := match d.owner with
    | some v => { b with ownerID := some v }
    | none => b
  b

/-- The field-mapping block of `UserHandler.Create`: `AddPetIDs` is called
exactly when the decoded slice is non-nil. -/
def buildUser (d : UserCreateRequest) : UserMutation :=
  let b : UserMutation := ⟨none, none, none⟩
  let b := match d.name with
    | some v => { b with name := some v }
    | none => b
  let b := match d.age with
    | some v => { b with age := some v }
    | none => b
  let b := match d.pets with
    | some v => { b with petIDs := some v }
    | none => b
  b

/-- The body of `PetHandler.Create` after JSON decoding, with the validator
outcome passed in (the validator instance is an injected collaborator) and
the storage backend as oracles: `save` gives the outcome of `b.Save`, and
`reload` gives the outcome of the reload query `q.Only` for a given id.
Mirrors `ent/http/create.go` lines 100-156. -/
def petCreateCore (vres : ValidationResult) (d : PetCreateRequest)
    (save : PetMutation → SaveResult Pet) (reload : Int → FetchResult Pet) :
    Outcome Pet :=
  match vres with
  | .fault =>
      ⟨.internalServerError none, [⟨.error, "error validating request data"⟩], []⟩
  | .invalid errs =>
      ⟨.badRequest (.fieldErrors errs), [⟨.info, "validation failed"⟩], []⟩
  | .valid =>
      let b := buildPet d
      match save b with
      | .err _ =>
          ⟨.internalServerError none, [⟨.error, "error saving pet"⟩], [.save]⟩
      | .ok e =>
          match reload e.id with
          | .found e2 =>
              ⟨.ok e2, [⟨.info, "pet rendered"⟩], [.save, .query e.id]⟩
          | .notFound =>
              ⟨.notFound "pet not found", [⟨.info, "pet not found"⟩],
                [.save, .query e.id]⟩
          | .notSingular =>
              ⟨.internalServerError none,
                [⟨.error, "error fetching pet from db"⟩], [.save, .query e.id]⟩
          | .storageError =>
              ⟨.internalServerError none,
                [⟨.error, "error fetching pet from db"⟩], [.save, .query e.id]⟩

/-- `PetHandler.Create` after decoding, with the validator run on the
decoded payload. -/
def petCreate (d : PetCreateRequest)
    (save : PetMutation → SaveResult Pet) (reload : Int → FetchResult Pet) :
    Outcome Pet :=
  petCreateCore (petValidateResult d) d save reload

/-- `PetHandler.Create` from the raw JSON body, including the decode step
(`ent/http/create.go` lines 93-98). -/
def petCreateFromJson (j : Json)
    (save : PetMutation → SaveResult Pet) (reload : Int → FetchResult Pet) :
    Outcome Pet :=
  match decodePetCreateRequest j with
  | .error _ =>
      ⟨.badRequest (.msg "invalid json string"),
        [⟨.error, "error decoding json"⟩], []⟩
  | .ok d => petCreate d save reload

/-- The body of `GroupHandler.Create` after JSON decoding, with the
validator outcome passed in.  Mirrors `ent/http/create.go` lines 34-80. -/
def groupCreateCore (vres : ValidationResult)
    (save : Unit → SaveResult Group) (reload : Int → FetchResult Group) :
    Outcome Group :=
  match vres with
  | .fault =>
      ⟨.internalServerError none, [⟨.error, "error validating request data"⟩], []⟩
  | .invalid errs =>
      ⟨.badRequest (.fieldErrors errs), [⟨.info, "validation failed"⟩], []⟩
  | .valid =>
      match save () with
      | .err _ =>
          ⟨.internalServerError none, [⟨.error, "error saving group"⟩], [.save]⟩
      | .ok e =>
          match reload e.id with
          | .found e2 =>
              ⟨.ok e2, [⟨.info, "group rendered"⟩], [.save, .query e.id]⟩
          | .notFound =>
              ⟨.notFound "group not found", [⟨.info, "group not found"⟩],
                [.save, .query e.id]⟩
          | .notSingular =>
              ⟨.internalServerError none,
                [⟨.error, "error fetching group from db"⟩], [.save, .query e.id]⟩
          | .storageError =>
              ⟨.internalServerError none,
                [⟨.error, "error fetching group from db"⟩], [.save, .query e.id]⟩

/-- `GroupHandler.Create` from the raw JSON body, including the decode
step and the (always-valid) validator run. -/
def groupCreateFromJson (j : Json)
    (save : Unit → SaveResult Group) (reload : Int → FetchResult Group) :
    Outcome Group :=
  match decodeGroupCreateRequest j with
  | .error _ =>
      ⟨.badRequest (.msg "invalid json string"),
        [⟨.error, "error decoding json"⟩], []⟩
  | .ok d => groupCreateCore (groupValidateResult d) save reload

/-- `PetHandler.Read` (generated Read handler): parse the id URL parameter
with `strconv.Atoi`, then query; ent NotFound gives 404 at info severity,
ent NotSingular gives 400 at error severity, any other query error gives
500.  Mirrors the generated read file lines 64-103. -/
def petRead (idParam : String) (fetch : Int → FetchResult Pet) : Outcome Pet :=
  match atoi idParam with
  | none =>
      ⟨.badRequest (.msg "id must be an integer greater zero"),
        [⟨.error, "error getting id from url parameter"⟩], []⟩
  | some id =>
      match fetch id with
      | .found e => ⟨.ok e, [⟨.info, "pet rendered"⟩], [.query id]⟩
      | .notFound =>
          ⟨.notFound "pet not found", [⟨.info, "pet not found"⟩], [.query id]⟩
      | .notSingular =>
          ⟨.badRequest (.msg "pet not singular"),
            [⟨.error, "pet not singular"⟩], [.query id]⟩
      | .storageError =>
          ⟨.internalServerError none,
            [⟨.error, "error fetching pet from db"⟩], [.query id]⟩

/-- Modelled from the spec: one serializable field of an entity (the
sheriff library and the entity structs with their `groups` tags are not
under src/).  A field carries a name, its serialization-group tags (empty
means untagged, hence always included) and a rendered value. -/
structure SerField where
  name : String
  tags : List String
  value : String
deriving DecidableEq, Repr

/-- Modelled from the spec: a relation target entity, rendered one level
deep (fields only). -/
structure FlatEntity where
  fields : List SerField
deriving DecidableEq, Repr

/-- Modelled from the spec: a named relation of an entity with its
serialization-group tags and its (eager-loaded) target entities. -/
structure SerRelation where
  name : String
  tags : List String
  targets : List FlatEntity
deriving DecidableEq, Repr

/-- Modelled from the spec: an entity as seen by the Serializer, with its
fields and relations. -/
structure SerEntity where
  fields : List SerField
  relations : List SerRelation
deriving DecidableEq, Repr

/-- A value in the serialized output: a primitive field value, the
explicitly-empty placeholder for a relation outside the active group set,
or an expanded relation. -/
inductive OutVal where
  | prim (s : String)
  | placeholder
  | expanded (content : List (List (String × String)))
deriving DecidableEq, Repr

/-- A tag set is active when it intersects the active group set. -/
def tagsActive (tags g : List String) : Bool :=
  tags.any (fun t => g.contains t)

/-- Modelled from the spec: serialize a relation target one level deep --
include every untagged field and every field whose tags intersect the
active group set. -/
def serializeFlat (g : List String) (e : FlatEntity) : List (String × String) :=
  e.fields.filterMap (fun f =>
    if f.tags.isEmpty || tagsActive f.tags g then some (f.name, f.value) else none)

/-- Modelled from the spec: render one relation -- expand it when its tags
intersect the active group set, otherwise emit the explicitly-empty
placeholder under the same key (never omit the key). -/
def renderRelation (g : List String) (r : SerRelation) : String × OutVal :=
  if tagsActive r.tags g then
    (r.name, .expanded (r.targets.map (serializeFlat g)))
  else
    (r.name, .placeholder)

/-- Modelled from the spec: the Serializer (spec section 4.5) -- include
every field without a group tag, include a group-tagged field exactly when
its tags intersect the active set, and render every relation, expanded or
as a placeholder. -/
def serialize (g : List String) (e : SerEntity) : List (String × OutVal) :=
  e.fields.filterMap (fun f =>
    if f.tags.isEmpty || tagsActive f.tags g then some (f.name, OutVal.prim f.value)
    else none)
  ++ e.relations.map (renderRelation g)

/-- Every run of the Pet Read handler emits exactly one log entry. -/
theorem petRead_logs_length (s : String) (f : Int → FetchResult Pet) :
    (petRead s f).logs.length = 1 := by
  cases ha : atoi s with
  | none => simp [petRead, ha]
  | some id => cases hf : f id <;> simp [petRead, ha, hf]

/-- Every run of the Pet Create body (post-decode) emits exactly one log
entry, whatever the validator and storage outcomes. -/
theorem petCreateCore_logs_length (vres : ValidationResult)
    (d : PetCreateRequest) (sv : PetMutation → SaveResult Pet)
    (rl : Int → FetchResult Pet) :
    (petCreateCore vres d sv rl).logs.length = 1 := by
  cases vres with
  | fault => rfl
  | invalid errs => rfl
  | valid =>
    cases hs : sv (buildPet d) with
    | ok e => cases hr : rl e.id <;> simp [petCreateCore, hs, hr]
    | err k => simp [petCreateCore, hs]

/-- An absent required field shows up in the validator error map. -/
theorem petValidate_mem_age (d : PetCreateRequest) (ha : d.age = none) :
    ("age", "required") ∈ petValidate d := by
  simp [petValidate, ha]

/-- An absent owner field shows up in the validator error map. -/
theorem petValidate_mem_owner (d : PetCreateRequest) (ho : d.owner = none) :
    ("owner", "required") ∈ petValidate d := by
  simp [petValidate, ho]

/-- C1: the claim says every id URL parameter that is not a positive
integer gets a 400 before the Data Access Port is invoked, but the Read
handler only checks that `strconv.Atoi` succeeds: the parameters "0" and
"-5" parse, the query IS issued, and the outcome is a 404 (NotFound) or a
200, never the claimed pre-query 400 -- even though the rejection message
of the handler itself reads "id must be an integer greater zero". -/
theorem c1_read_nonpositive_id_reaches_port :
    (petRead "0" (fun _ => .notFound)).portCalls = [PortCall.query 0] ∧
    (petRead "0" (fun _ => .notFound)).response = .notFound "pet not found" ∧
    (petRead "-5" (fun _ => .notFound)).portCalls = [PortCall.query (-5)] ∧
    (petRead "abc" (fun _ => .notFound)).portCalls = [] ∧
    (petRead "abc" (fun _ => .notFound)).response
      = .badRequest (.msg "id must be an integer greater zero") := by
  refine ⟨by decide, by decide, by decide, by decide, by decide⟩

/-- C2 counterexample: a NotSingular outcome on the re-fetch performed
after a successful Create is answered with 500, not the claimed 400 -- the
reload error switch in `PetHandler.Create` only special-cases NotFound. -/
theorem c2_create_reload_notSingular_is_500 :
    (petCreate ⟨some "Kuro", some 3, some 1⟩ (fun _ => .ok ⟨1, "Kuro", 3⟩)
        (fun _ => .notSingular)).response = .internalServerError none := by rfl

/-- C2 amended: a NotSingular outcome on the Read fetch-by-identifier is
answered 400 Bad Request, but a NotSingular outcome on the re-fetch after a
successful Create falls into the default branch and is answered 500. -/
theorem c2_notSingular_read_400_create_reload_500 (s : String) (id : Int)
    (f : Int → FetchResult Pet) (d : PetCreateRequest) (e : Pet)
    (sv : PetMutation → SaveResult Pet)
    (hs : atoi s = some id) (hf : f id = .notSingular)
    (hv : petValidate d = []) (hsv : sv (buildPet d) = .ok e) :
    (petRead s f).response = .badRequest (.msg "pet not singular") ∧
    (petCreate d sv (fun _ => .notSingular)).response
      = .internalServerError none := by
  constructor
  · simp [petRead, hs, hf]
  · simp [petCreate, petCreateCore, petValidateResult, hv, hsv]

/-- Witness for the C2 amended theorem at concrete inputs. -/
theorem c2_notSingular_read_400_create_reload_500_witness :
    (petRead "7" (fun _ => .notSingular)).response
      = .badRequest (.msg "pet not singular") ∧
    (petCreate ⟨some "Kuro", some 3, some 1⟩ (fun _ => .ok ⟨1, "Kuro", 3⟩)
        (fun _ => .notSingular)).response = .internalServerError none :=
  c2_notSingular_read_400_create_reload_500 "7" 7 (fun _ => .notSingular)
    ⟨some "Kuro", some 3, some 1⟩ ⟨1, "Kuro", 3⟩ (fun _ => .ok ⟨1, "Kuro", 3⟩)
    (by decide) rfl (by decide) rfl

/-- C4: the Create field-mapping blocks set on the builder exactly the
fields present (non-nil) in the decoded payload, with the payload value;
absent fields leave the builder setter uncalled, so storage-side defaults
apply to them.  Holds for both the Pet and the User builder. -/
theorem c4_builder_maps_exactly_present_fields (d : PetCreateRequest)
    (u : UserCreateRequest) :
    (buildPet d).name = d.name ∧ (buildPet d).age = d.age ∧
    (buildPet d).ownerID = d.owner ∧
    (buildUser u).name = u.name ∧ (buildUser u).age = u.age ∧
    (buildUser u).petIDs = u.pets := by
  obtain ⟨n, a, o⟩ := d
  obtain ⟨n2, a2, p2⟩ := u
  cases n <;> cases a <;> cases o <;> cases n2 <;> cases a2 <;> cases p2 <;>
    simp [buildPet, buildUser]

/-- C6 counterexample: a Create whose storage write fails with a
referential-integrity (constraint) violation is answered 500, not the
claimed 400 -- `PetHandler.Create` maps every `Save` error to
InternalServerError without inspecting its kind. -/
theorem c6_constraint_save_error_is_500 :
    (petCreate ⟨some "Kuro", some 3, some 1⟩ (fun _ => .err .constraint)
        (fun _ => .notFound)).response = .internalServerError none := by rfl

/-- C6 amended: every Create whose storage write fails is answered 500
regardless of the error kind (referential-integrity or other); no reload
query is issued after a failed write. -/
theorem c6_save_error_always_500 (d : PetCreateRequest) (k : SaveErrKind)
    (rl : Int → FetchResult Pet) (hv : petValidate d = []) :
    (petCreate d (fun _ => .err k) rl).response = .internalServerError none ∧
    (petCreate d (fun _ => .err k) rl).portCalls = [PortCall.save] := by
  constructor <;> simp [petCreate, petCreateCore, petValidateResult, hv]

/-- Witness for the C6 amended theorem at concrete inputs. -/
theorem c6_save_error_always_500_witness :
    (petCreate ⟨some "Kuro", some 3, some 1⟩ (fun _ => .err .other)
        (fun _ => .notFound)).response = .internalServerError none ∧
    (petCreate ⟨some "Kuro", some 3, some 1⟩ (fun _ => .err .other)
        (fun _ => .notFound)).portCalls = [PortCall.save] :=
  c6_save_error_always_500 ⟨some "Kuro", some 3, some 1⟩ .other
    (fun _ => .notFound) (by decide)

/-- C7: when the validator reports an InvalidValidationError (a fault in
the validation configuration itself), the handler responds 500 with a nil
body detail -- the fault message goes to the error log only, never to the
caller.  Holds for both the Pet and the Group Create handler. -/
theorem c7_validator_fault_500_no_detail (d : PetCreateRequest)
    (sv : PetMutation → SaveResult Pet) (rl : Int → FetchResult Pet)
    (svg : Unit → SaveResult Group) (rlg : Int → FetchResult Group) :
    (petCreateCore .fault d sv rl).response = .internalServerError none ∧
    (petCreateCore .fault d sv rl).logs
      = [⟨.error, "error validating request data"⟩] ∧
    (petCreateCore .fault d sv rl).portCalls = [] ∧
    (groupCreateCore .fault svg rlg).response = .internalServerError none :=
  ⟨rfl, rfl, rfl, rfl⟩

/-- C10 counterexample: a syntactically well-formed JSON body that is not
an object (here the array `[]`) does not behave like an object body -- Go
cannot unmarshal an array into the (field-less) payload struct, so the
handler answers 400 where an object body proceeds to storage. -/
theorem c10_nonobject_body_differs :
    (groupCreateFromJson (.arr []) (fun _ => .ok ⟨1⟩)
        (fun _ => .found ⟨1⟩)).response ≠
    (groupCreateFromJson (.obj []) (fun _ => .ok ⟨1⟩)
        (fun _ => .found ⟨1⟩)).response := by
  decide

/-- C10 amended: for every well-formed JSON OBJECT request body, Group
Create behaves identically regardless of the object members (the
field-less payload struct ignores them all), validation always passes, and
the created Group does not depend on anything the client sent. -/
theorem c10_group_create_ignores_object_fields (fs1 fs2 : List (String × Json))
    (sv : Unit → SaveResult Group) (rl : Int → FetchResult Group)
    (d : GroupCreateRequest) :
    groupCreateFromJson (.obj fs1) sv rl = groupCreateFromJson (.obj fs2) sv rl ∧
    decodeGroupCreateRequest (.obj fs1) = .ok ⟨⟩ ∧
    groupValidateResult d = .valid :=
  ⟨rfl, rfl, rfl⟩

/-- C3: a Pet Create payload missing a required field (owner absent, or
age absent) is answered 400 Bad Request; the missing field appears in the
returned field-to-message error map, and no Data Access Port call (in
particular no builder Save) is issued. -/
theorem c3_missing_required_field_400_no_save (d : PetCreateRequest)
    (sv : PetMutation → SaveResult Pet) (rl : Int → FetchResult Pet)
    (h : d.age = none ∨ d.owner = none) :
    (∃ m, (petCreate d sv rl).response = .badRequest (.fieldErrors m) ∧
      (d.age = none → ("age", "required") ∈ m) ∧
      (d.owner = none → ("owner", "required") ∈ m)) ∧
    (petCreate d sv rl).portCalls = [] := by
  have hne : petValidate d ≠ [] := by
    rcases h with ha | ho
    · exact List.ne_nil_of_mem (petValidate_mem_age d ha)
    · exact List.ne_nil_of_mem (petValidate_mem_owner d ho)
  refine ⟨⟨petValidate d, ?_, fun ha => petValidate_mem_age d ha,
    fun ho => petValidate_mem_owner d ho⟩, ?_⟩ <;>
    simp [petCreate, petCreateCore, petValidateResult, hne]

/-- Witness for C3 at the spec example payload (name "Bob", age -2, owner
absent). -/
theorem c3_missing_required_field_400_no_save_witness :
    ((∃ m, (petCreate ⟨some "Bob", some (-2), none⟩
          (fun _ => SaveResult.err .other) (fun _ => FetchResult.notFound)).response
            = .badRequest (.fieldErrors m) ∧
        ((⟨some "Bob", some (-2), none⟩ : PetCreateRequest).age = none →
          ("age", "required") ∈ m) ∧
        ((⟨some "Bob", some (-2), none⟩ : PetCreateRequest).owner = none →
          ("owner", "required") ∈ m)) ∧
      (petCreate ⟨some "Bob", some (-2), none⟩
        (fun _ => SaveResult.err .other) (fun _ => FetchResult.notFound)).portCalls = []) :=
  c3_missing_required_field_400_no_save ⟨some "Bob", some (-2), none⟩
    (fun _ => SaveResult.err .other) (fun _ => FetchResult.notFound) (Or.inr rfl)

/-- C5: after a successful Create write, the handler issues exactly one
reload query, by the identifier of the entity returned from the write, as
its next and last Data Access Port call, before serializing anything; and
if that reload reports NotFound, the response is 404. -/
theorem c5_create_refetch_after_write (d : PetCreateRequest) (e : Pet)
    (rl : Int → FetchResult Pet) (hv : petValidate d = []) :
    (petCreate d (fun _ => .ok e) rl).portCalls
      = [PortCall.save, PortCall.query e.id] ∧
    (rl e.id = .notFound →
      (petCreate d (fun _ => .ok e) rl).response = .notFound "pet not found") := by
  constructor
  · cases hr : rl e.id <;>
      simp [petCreate, petCreateCore, petValidateResult, hv, hr]
  · intro hr
    simp [petCreate, petCreateCore, petValidateResult, hv, hr]

/-- Witness for C5 at a concrete valid payload with a reload that reports
NotFound (a concurrent delete between write and re-fetch). -/
theorem c5_create_refetch_after_write_witness :
    ((petCreate ⟨some "Kuro", some 3, some 1⟩
        (fun _ => SaveResult.ok ⟨1, "Kuro", 3⟩)
        (fun _ => FetchResult.notFound)).portCalls
      = [PortCall.save, PortCall.query (Pet.id ⟨1, "Kuro", 3⟩)] ∧
    ((fun _ => FetchResult.notFound : Int → FetchResult Pet) (Pet.id ⟨1, "Kuro", 3⟩)
        = FetchResult.notFound →
      (petCreate ⟨some "Kuro", some 3, some 1⟩
        (fun _ => SaveResult.ok ⟨1, "Kuro", 3⟩)
        (fun _ => FetchResult.notFound)).response = .notFound "pet not found")) :=
  c5_create_refetch_after_write ⟨some "Kuro", some 3, some 1⟩ ⟨1, "Kuro", 3⟩
    (fun _ => FetchResult.notFound) (by decide)

/-- C8 counterexample: a JSON decode failure -- an expected, client-caused
400-class condition that the claim says is logged at info severity -- is
logged at error severity by the Create handler. -/
theorem c8_decode_failure_logged_at_error :
    (petCreateFromJson (.arr []) (fun _ => .err .other)
        (fun _ => .notFound)).response = .badRequest (.msg "invalid json string") ∧
    (petCreateFromJson (.arr []) (fun _ => .err .other)
        (fun _ => .notFound)).logs = [⟨.error, "error decoding json"⟩] :=
  ⟨rfl, rfl⟩

/-- C8 amended: every handler run logs exactly once, but the severity
split differs from the claim -- validation failures and NotFound are
logged at info, while decode failures, identifier-parse failures and the
Read NotSingular outcome are logged at error severity even though they are
400-class; save errors, reload faults and other 500-class conditions are
logged at error. -/
theorem c8_fault_logging_severities (s : String) (f : Int → FetchResult Pet)
    (j : Json) (sv : PetMutation → SaveResult Pet) (rl : Int → FetchResult Pet)
    (d : PetCreateRequest) :
    (petRead s f).logs.length = 1 ∧
    (petCreateFromJson j sv rl).logs.length = 1 ∧
    (atoi s = none →
      (petRead s f).logs = [⟨.error, "error getting id from url parameter"⟩]) ∧
    (∀ id, atoi s = some id → f id = .notFound →
      (petRead s f).logs = [⟨.info, "pet not found"⟩]) ∧
    (∀ id, atoi s = some id → f id = .notSingular →
      (petRead s f).logs = [⟨.error, "pet not singular"⟩]) ∧
    (∀ id, atoi s = some id → f id = .storageError →
      (petRead s f).logs = [⟨.error, "error fetching pet from db"⟩]) ∧
    (decodePetCreateRequest j = .error () →
      (petCreateFromJson j sv rl).logs = [⟨.error, "error decoding json"⟩]) ∧
    (petValidate d ≠ [] →
      (petCreate d sv rl).logs = [⟨.info, "validation failed"⟩]) ∧
    (∀ k, petValidate d = [] → sv (buildPet d) = .err k →
      (petCreate d sv rl).logs = [⟨.error, "error saving pet"⟩]) ∧
    (∀ e, petValidate d = [] → sv (buildPet d) = .ok e → rl e.id = .notFound →
      (petCreate d sv rl).logs = [⟨.info, "pet not found"⟩]) := by
  refine ⟨petRead_logs_length s f, ?_, ?_, ?_, ?_, ?_, ?_, ?_, ?_, ?_⟩
  · cases hd : decodePetCreateRequest j with
    | error u => simp [petCreateFromJson, hd]
    | ok d2 =>
        simpa [petCreateFromJson, hd, petCreate] using
          petCreateCore_logs_length (petValidateResult d2) d2 sv rl
  · intro ha
    simp [petRead, ha]
  · intro id ha hf
    simp [petRead, ha, hf]
  · intro id ha hf
    simp [petRead, ha, hf]
  · intro id ha hf
    simp [petRead, ha, hf]
  · intro hd
    simp [petCreateFromJson, hd]
  · intro hne
    simp [petCreate, petCreateCore, petValidateResult, hne]
  · intro k hv hs
    simp [petCreate, petCreateCore, petValidateResult, hv, hs]
  · intro e hv hs hr
    simp [petCreate, petCreateCore, petValidateResult, hv, hs, hr]

/-- Witness for the C8 amended theorem: a non-numeric id parameter is a
parse failure logged once, at error severity. -/
theorem c8_fault_logging_severities_witness :
    (petRead "abc" (fun _ => FetchResult.notFound)).logs
      = [⟨LogLevel.error, "error getting id from url parameter"⟩] :=
  (c8_fault_logging_severities "abc" (fun _ => FetchResult.notFound) (.obj [])
      (fun _ => SaveResult.err .other) (fun _ => FetchResult.notFound)
      ⟨none, none, none⟩).2.2.1 (by decide)

/-- C9: the Serializer is deterministic (same entity and same active group
set give identical output), and a relation whose tags do not intersect the
active group set is still present in the output under its own key, bound
to the explicitly-empty placeholder -- never omitted. -/
theorem c9_serialization_stable_and_placeholder (g : List String)
    (e : SerEntity) (r : SerRelation) (h : r ∈ e.relations) :
    serialize g e = serialize g e ∧
    (r.name, (renderRelation g r).2) ∈ serialize g e ∧
    (tagsActive r.tags g = false →
      (renderRelation g r).2 = OutVal.placeholder) := by
  refine ⟨rfl, ?_, ?_⟩
  · have h1 : renderRelation g r ∈ e.relations.map (renderRelation g) :=
      List.mem_map_of_mem _ h
    have h2 : (r.name, (renderRelation g r).2) = renderRelation g r := by
      unfold renderRelation
      split <;> rfl
    unfold serialize
    rw [h2]
    exact List.mem_append_right _ h1
  · intro ht
    simp [renderRelation, ht]

/-- Witness for C9 at a concrete entity with one relation whose tag is
outside the active group set. -/
theorem c9_serialization_witness :
    serialize ["pet"] ⟨[], [⟨"owner", ["og"], []⟩]⟩
        = serialize ["pet"] ⟨[], [⟨"owner", ["og"], []⟩]⟩ ∧
    ((⟨"owner", ["og"], []⟩ : SerRelation).name,
        (renderRelation ["pet"] ⟨"owner", ["og"], []⟩).2)
      ∈ serialize ["pet"] ⟨[], [⟨"owner", ["og"], []⟩]⟩ ∧
    (tagsActive (SerRelation.tags ⟨"owner", ["og"], []⟩) ["pet"] = false →
      (renderRelation ["pet"] ⟨"owner", ["og"], []⟩).2 = OutVal.placeholder) :=
  c9_serialization_stable_and_placeholder ["pet"] ⟨[], [⟨"owner", ["og"], []⟩]⟩
    ⟨"owner", ["og"], []⟩ (by simp)

end Elk
